import Mathlib

/-!
Shallow embedding of the core of the Omega2D vortex/panel/hybrid engine
(files src/ElementBase.h, src/Surfaces.h, src/Hybrid.h), together with
theorems settling the specification claims about it.

Conventions of the embedding:
* the C++ scalar types (float/double) are idealised as exact arithmetic:
  the rational numbers for the hybrid-controller code (whose claims are
  about control flow and exact formulas) and the real numbers for the
  geometric code (which uses sqrt/sin/cos);
* std::vector becomes List, std::optional becomes Option, and a C++ loop
  `for (i=0; i<n; ++i) v[i] = f(i,v[i]);` over a vector of length >= n
  becomes `updRange n f v` (out-of-range reads, undefined behaviour in
  C++, default to 0);
* the Body class (not among the given sources) is modelled from the spec:
  a rigid frame exposing, at a query time, position, orientation (in
  radians, per the spec), translational velocity and angular velocity.
-/

namespace Omega2D

/-! ## Hybrid.h: parameters and configuration ingest -/

/-- Mirror of the parameter state of the `Hybrid` class (Hybrid.h lines
82-92): active/initialized flags and the numeric knobs. -/
structure HybridParams where
  active : Bool
  initialized : Bool
  elementOrder : Int
  timeOrder : Int
  numSubsteps : Int
  preconditioner : String
  solverType : String
  deriving DecidableEq

/-- Mirror of the `Hybrid()` constructor defaults (Hybrid.h lines 36-49). -/
def hybridDefault : HybridParams :=
  { active := false
    initialized := false
    elementOrder := 1
    timeOrder := 1
    numSubsteps := 100
    preconditioner := "none"
    solverType := "fgmres" }

/-- A configuration document's "hybrid" object: each recognized option is
present or absent.  `j.value(key, dflt)` of nlohmann::json is
`(field).getD dflt`. -/
structure HybridConfig where
  enabled : Option Bool
  elementOrder : Option Int
  timeOrder : Option Int
  numSubsteps : Option Int
  preconditioner : Option String
  solverType : Option String

/-- Mirror of `Hybrid::from_json` (Hybrid.h lines 509-521): when the
document has a "hybrid" object (`hasHybrid`), each knob is read with
`j.value(key, default)`; otherwise the state is untouched. -/
def from_json (hasHybrid : Bool) (cfg : HybridConfig) (h : HybridParams) : HybridParams :=
  if hasHybrid then
    { h with
      active := cfg.enabled.getD false
      elementOrder := cfg.elementOrder.getD 1
      timeOrder := cfg.timeOrder.getD 1
      numSubsteps := cfg.numSubsteps.getD 100
      preconditioner := cfg.preconditioner.getD "none"
      solverType := cfg.solverType.getD "fgmres" }
  else h

/-! ## Hybrid.h: the early-out guards of first_step and step

`Hybrid::first_step` (lines 206-215) and `Hybrid::step` (lines 291-303)
both begin with `if (not active) return;` followed by
`if (not initialized) init(_euler);` and then the rest of the body.  The
world `W` (vorticity collections, boundary collections, Euler volumes and
the external solver) and the remainder of each body are abstract here:
the claims about these guards hold for every remainder. -/

/-- Control-flow skeleton of `Hybrid::first_step` (Hybrid.h lines 206-215). -/
def hybrid_first_step {W : Type} (h : HybridParams) (doInit : HybridParams → W → HybridParams × W)
    (body : HybridParams → W → HybridParams × W) (w : W) : HybridParams × W :=
  if h.active = false then (h, w)
  else
    let hw := if h.initialized = false then doInit h w else (h, w)
    body hw.1 hw.2

/-- Control-flow skeleton of `Hybrid::step` (Hybrid.h lines 291-305). -/
def hybrid_step {W : Type} (h : HybridParams) (doInit : HybridParams → W → HybridParams × W)
    (body : HybridParams → W → HybridParams × W) (w : W) : HybridParams × W :=
  if h.active = false then (h, w)
  else
    let hw := if h.initialized = false then doInit h w else (h, w)
    body hw.1 hw.2

/-! ## Hybrid.h: phase C of step, the particle-strength correction loop -/

/-- Total masked Eulerian circulation magnitude
`totalcircmag = sum_i fabs(eulvort[i]*area[i])` (Hybrid.h lines 432-433). -/
def totalCircMag (eulvort area : List ℚ) : ℚ :=
  (List.zipWith (fun e a => |e * a|) eulvort area).sum

/-- Masked vorticity deficit `circ[i] = (eulvort[i] - lagvort[i]) * area[i]`
(Hybrid.h lines 406-425). -/
def maskedDeficit (eulvort lagvort area : List ℚ) : List ℚ :=
  List.zipWith (· * ·) (List.zipWith (· - ·) eulvort lagvort) area

/-- Relative error `thiserror = (sum_i fabs(circ[i])) / totalcircmag`
(Hybrid.h lines 437-444 and 491-493). -/
def phaseCError (eulvort lagvort area : List ℚ) : ℚ :=
  ((maskedDeficit eulvort lagvort area).map (fun c => |c|)).sum / totalCircMag eulvort area

/-- The phase-C correction loop of `Hybrid::step` (Hybrid.h lines 447-497):
`while (thiserror>maxerror and iter<maxiter)` with `maxerror = 0.01` and
`maxiter = 20`; each pass inserts equivalent particles, merges, re-runs the
convection solve (all summarised by the oracle `lagAt`, where `lagAt k` is
the Lagrangian vorticity at the solution points after `k` insertion passes)
and recomputes the error; `iter` is incremented at the end of the body.
The fuel argument only makes the recursion structural; `phaseC` supplies
enough of it that it is never exhausted. -/
def phaseCLoop (eulvort area : List ℚ) (lagAt : ℕ → List ℚ) :
    ℕ → ℕ → ℚ → ℕ × ℚ
  | 0, iter, err => (iter, err)
  | fuel + 1, iter, err =>
    if 1/100 < err ∧ iter < 20 then
      phaseCLoop eulvort area lagAt fuel (iter + 1)
        (phaseCError eulvort (lagAt (iter + 1)) area)
    else (iter, err)

/-- Phase C of `Hybrid::step` for one Euler volume: the initial error
(Hybrid.h lines 437-445) followed by the correction loop; returns the
number of executed loop bodies and the final error. -/
def phaseC (eulvort area : List ℚ) (lagAt : ℕ → List ℚ) : ℕ × ℚ :=
  phaseCLoop eulvort area lagAt 21 0 (phaseCError eulvort (lagAt 0) area)

/-- Error value at the start of correction pass `k` of phase C: the
relative error computed from the Lagrangian vorticity after `k`
insertion passes. -/
def phaseCErrAt (ev ar : List ℚ) (lag : ℕ → List ℚ) (k : ℕ) : ℚ :=
  phaseCError ev (lag k) ar

/-! ## ElementBase.h and Surfaces.h: the element model and panel geometry -/

/-- Element type `elem_t` (whether the collection owns a free strength,
has it solved by BEM, or has none). -/
inductive elem_t
  | active
  | reactive
  | inert
  deriving DecidableEq

/-- Movement type `move_t` (advected by local velocity, rigidly tied to a
body, or stationary). -/
inductive move_t
  | lagrangian
  | bodybound
  | fixed
  deriving DecidableEq

/-- Modelled from the spec: the Body class (Body.h is not among the given
sources).  A rigid frame exposing at query time the position, the
orientation in radians, the translational velocity and the angular
velocity; `B->transform(t)` followed by the no-argument getters is
modelled by evaluating these functions at `t`. -/
structure Body where
  name : String
  pos : ℝ → ℝ × ℝ
  orient : ℝ → ℝ
  vel : ℝ → ℝ × ℝ
  rotvel : ℝ → ℝ

/-- State of `ElementBase<S>` (ElementBase.h lines 279-302): element and
movement types, optional body, element count, per-dimension positions,
optional strengths, velocities and optional untransformed positions. -/
structure ElementBase where
  E : elem_t
  M : move_t
  B : Option Body
  n : ℕ
  x : List ℝ × List ℝ
  s : Option (List ℝ)
  u : List ℝ × List ℝ
  ux : Option (List ℝ × List ℝ)

noncomputable section

/-- Mirror of `ElementBase::transform` (ElementBase.h lines 167-188): for a
bodybound collection with a body, query the body at time `t` and set
`x[0][i] = pos0 + ux[0][i]*ct - ux[1][i]*st` and
`x[1][i] = pos1 + ux[0][i]*st + ux[1][i]*ct` where — exactly as in the
source — `st = sin(M_PI*theta/180)` and `ct = cos(M_PI*theta/180)` for
`theta = B->get_orient()`.  (Dereferencing an absent `ux`, undefined
behaviour in C++, leaves the state unchanged here; the loop bound
`get_n()` agrees with the array lengths by the `len == n` invariant.) -/
def ebTransform (t : ℝ) (e : ElementBase) : ElementBase :=
  match e.B, e.M, e.ux with
  | some bdy, move_t.bodybound, some uxp =>
    let p := bdy.pos t
    let theta := bdy.orient t
    let st := Real.sin (Real.pi * theta / 180)
    let ct := Real.cos (Real.pi * theta / 180)
    { e with x := (List.zipWith (fun a b => p.1 + a * ct - b * st) uxp.1 uxp.2,
                   List.zipWith (fun a b => p.2 + a * st + b * ct) uxp.1 uxp.2) }
  | _, _, _ => e

/-- Mirror of `ElementBase::move(_time, _dt)` (ElementBase.h lines
191-207): lagrangian collections set `x[d][i] += dt*u[d][i]`; bodybound
collections with a body call `transform(time+dt)`; all others do
nothing. -/
def ebMove (t dt : ℝ) (e : ElementBase) : ElementBase :=
  if e.M = move_t.lagrangian then
    { e with x := (List.zipWith (fun a b => a + dt * b) e.x.1 e.u.1,
                   List.zipWith (fun a b => a + dt * b) e.x.2 e.u.2) }
  else if e.B.isSome ∧ e.M = move_t.bodybound then ebTransform (t + dt) e
  else e

/-- Panel-wise geometry of a Surfaces collection: the basis vectors
`b[0] = (b0x, b0y)` (unit tangent) and `b[1] = (b1x, b1y)` (normal) and
the panel areas, as stored in the members `b` and `area` of
`Surfaces<S>` (Surfaces.h lines 1072-1073). -/
structure PanelGeom where
  b0x : List ℝ
  b0y : List ℝ
  b1x : List ℝ
  b1y : List ℝ
  area : List ℝ

/-- Mirror of `Surfaces::compute_bases(nnew)` (Surfaces.h lines 577-618):
for each panel `i < nnew` with node indices `id0 = idx[2i]`,
`id1 = idx[2i+1]`, the edge vector is normalised by
`base = sqrt(dx*dx+dy*dy)` via multiplication with `1.0/base` — with no
guard against `base == 0` — giving the tangent; `area[i] = base`; the
normal is `(-tan_y, tan_x)`. -/
def computeBases (x0 x1 : List ℝ) (idx : List ℕ) (nnew : ℕ) : PanelGeom :=
  let tanArea := fun (i : ℕ) =>
    let id0 := idx.getD (2*i) 0
    let id1 := idx.getD (2*i+1) 0
    let dx := x0.getD id1 0 - x0.getD id0 0
    let dy := x1.getD id1 0 - x1.getD id0 0
    let base := Real.sqrt (dx*dx + dy*dy)
    (dx * (1/base), dy * (1/base), base)
  { b0x := (List.range nnew).map fun i => (tanArea i).1
    b0y := (List.range nnew).map fun i => (tanArea i).2.1
    b1x := (List.range nnew).map fun i => -(tanArea i).2.1
    b1y := (List.range nnew).map fun i => (tanArea i).1
    area := (List.range nnew).map fun i => (tanArea i).2.2 }

/-- State of `Surfaces<S>` over its `ElementBase` substrate (Surfaces.h
lines 1064-1099): panel count, node-index array, panel geometry, panel
velocities, panel strengths, boundary conditions, rotation-induced
strengths, signed volume, untransformed and transformed geometric centers
and the augmentation results. -/
structure Surfaces where
  base : ElementBase
  np : ℕ
  idx : List ℕ
  geom : PanelGeom
  pu : List ℝ × List ℝ
  ps : Option (List ℝ)
  bc0 : Option (List ℝ)
  bc1 : Option (List ℝ)
  rs0 : Option (List ℝ)
  rs1 : Option (List ℝ)
  vol : ℝ
  utc : ℝ × ℝ
  tc : ℝ × ℝ
  solved_omega : ℝ
  omega_error : ℝ

/-- Mirror of `Surfaces::is_augmented` (Surfaces.h lines 237-258),
translated branch for branch: `augment` starts true; with a body named
"ground" it is cleared only when additionally `vol < 0`; with no body it
is cleared; finally non-reactive surfaces clear it. -/
def is_augmented (s : Surfaces) : Bool :=
  let augment : Bool :=
    match s.base.B with
    | some bdy => if bdy.name = "ground" then (if s.vol < 0 then false else true) else true
    | none => false
  if s.base.E = elem_t.reactive then augment else false

/-- The augmentation predicate as the specification words it: reactive,
attached to a Body, that body not named "ground", and `vol > 0`.  Stated
from the spec, for comparison with `is_augmented` from the source. -/
def spec_is_augmented (s : Surfaces) : Prop :=
  s.base.E = elem_t.reactive ∧
    ∃ bdy, s.base.B = some bdy ∧ bdy.name ≠ "ground" ∧ 0 < s.vol

/-- Mirror of `Surfaces::transform` (Surfaces.h lines 621-645): the base
class transform, then `compute_bases(np)`, then — for a bodybound surface
with a body — `tc = pos + R(theta)·utc` with `st = sin(theta)` and
`ct = cos(theta)` on the raw `B->get_orient()` (no degree conversion
here, unlike the base class); otherwise `tc = utc`. -/
def surfTransform (t : ℝ) (s : Surfaces) : Surfaces :=
  let base' := ebTransform t s.base
  let geom' := computeBases base'.x.1 base'.x.2 s.idx s.np
  match s.base.B, s.base.M with
  | some bdy, move_t.bodybound =>
    let p := bdy.pos t
    let theta := bdy.orient t
    let st := Real.sin theta
    let ct := Real.cos theta
    { s with base := base', geom := geom',
             tc := (p.1 + s.utc.1 * ct - s.utc.2 * st,
                    p.2 + s.utc.1 * st + s.utc.2 * ct) }
  | _, _ => { s with base := base', geom := geom', tc := s.utc }

/-- The node positions the claim's formula `x = pos + R(theta)·ux`
prescribes (theta in radians, applied directly).  Stated from the spec,
for comparison with `ebTransform` from the source. -/
def spec_transform_x (p : ℝ × ℝ) (theta : ℝ) (uxp : List ℝ × List ℝ) : List ℝ × List ℝ :=
  (List.zipWith (fun a b => p.1 + a * Real.cos theta - b * Real.sin theta) uxp.1 uxp.2,
   List.zipWith (fun a b => p.2 + a * Real.sin theta + b * Real.cos theta) uxp.1 uxp.2)

/-- Semantics of `std::vector::resize(m)`: keep the first `m` entries,
pad with zeros. -/
def resizeList (l : List ℝ) (m : ℕ) : List ℝ :=
  l.take m ++ List.replicate (m - l.length) 0

/-- The C++ loop `for (i=0; i<n; ++i) v[i] = f(i, v[i]);`: entries below
`n` are rewritten, the rest of the vector is untouched. -/
def updRange (n : ℕ) (f : ℕ → ℝ → ℝ) (l : List ℝ) : List ℝ :=
  ((List.range n).map fun i => f i (l.getD i 0)) ++ l.drop n

/-- The per-panel quantities of the loop body of
`Surfaces::add_rot_strengths_base` (Surfaces.h lines 496-527): the vector
from the (untransformed) geometric center to the panel center, the
imposed velocity `(ui, vi) = (-factor*dy, factor*dx)`, the panel tangent
from the untransformed nodes scaled by `1.0/area[i]`, and the two
increments `(new_vort, new_src)`. -/
def rotDelta (s : Surfaces) (factor : ℝ) (i : ℕ) : ℝ × ℝ :=
  let uxp := s.base.ux.getD ([], [])
  let j := s.idx.getD (2*i) 0
  let jp1 := s.idx.getD (2*i+1) 0
  let dx := (uxp.1.getD j 0 + uxp.1.getD jp1 0) / 2 - s.utc.1
  let dy := (uxp.2.getD j 0 + uxp.2.getD jp1 0) / 2 - s.utc.2
  let ui := -factor * dy
  let vi := factor * dx
  let oopanell := 1 / s.geom.area.getD i 0
  let panelx := (uxp.1.getD jp1 0 - uxp.1.getD j 0) * oopanell
  let panely := (uxp.2.getD jp1 0 - uxp.2.getD j 0) * oopanell
  (-(ui * panelx + vi * panely), -(ui * panely - vi * panelx))

/-- Mirror of `Surfaces::add_rot_strengths_base(factor)` (Surfaces.h lines
468-528): early-out when there is no body, no strength array, or the body
is named "ground"; otherwise size the rotation-strength arrays to the
panel count (creating them zero-filled when absent) and, for every panel,
add `new_vort` to both `ps[i]` and `rs[0][i]` and `new_src` to
`rs[1][i]`. -/
def add_rot_strengths_base (factor : ℝ) (s : Surfaces) : Surfaces :=
  match s.base.B with
  | none => s
  | some bdy =>
    match s.ps with
    | none => s
    | some psv =>
      if bdy.name = "ground" then s
      else
        let rs0r := resizeList (s.rs0.getD []) s.np
        let rs1r := resizeList (s.rs1.getD []) s.np
        { s with
          ps := some (updRange s.np (fun i p => p + (rotDelta s factor i).1) psv)
          rs0 := some (updRange s.np (fun i p => p + (rotDelta s factor i).1) rs0r)
          rs1 := some (updRange s.np (fun i p => p + (rotDelta s factor i).2) rs1r) }

/-- The source contribution as the specification words it:
`-(u*norm_x - v*norm_y)`.  Stated from the spec, for comparison with the
`new_src` of `rotDelta` from the source. -/
def spec_src_delta (u v nx ny : ℝ) : ℝ := -(u * nx - v * ny)

/-- Vortex contribution of the claim (and of the code):
`-(u*tan_x + v*tan_y)`. -/
def amended_vort_delta (u v tanx tany : ℝ) : ℝ := -(u * tanx + v * tany)

/-- Source contribution as the code computes it:
`-(u*tan_y - v*tan_x)`, which equals `u*norm_x + v*norm_y` — the normal
component of the imposed velocity — for `norm = (-tan_y, tan_x)`. -/
def amended_src_delta (u v tanx tany : ℝ) : ℝ := -(u * tany - v * tanx)

/-! ## Concrete states used by the evaluation theorems -/

/-- A body named "ground" at rest at the origin. -/
def groundBody : Body :=
  { name := "ground", pos := fun _ => (0, 0), orient := fun _ => 0,
    vel := fun _ => (0, 0), rotvel := fun _ => 0 }

/-- A reactive, bodybound surface of one vertical panel from node (0,0) to
node (0,1), attached to the ground body, with positive volume 1 (an
external body), in its untransformed pose; its stored geometry is the one
`compute_bases` yields for these nodes: tangent (0,1), normal (-1,0),
area 1. -/
def groundSurf : Surfaces :=
  { base := { E := elem_t.reactive, M := move_t.bodybound, B := some groundBody,
              n := 2, x := ([0, 0], [0, 1]), s := none,
              u := ([0, 0], [0, 0]), ux := some ([0, 0], [0, 1]) }
    np := 1, idx := [0, 1]
    geom := { b0x := [0], b0y := [1], b1x := [-1], b1y := [0], area := [1] }
    pu := ([0], [0]), ps := some [0], bc0 := some [0], bc1 := none
    rs0 := none, rs1 := none, vol := 1, utc := (0, 0), tc := (0, 0)
    solved_omega := 0, omega_error := 0 }

/-- A body (not named "ground") whose orientation at every time is pi
radians. -/
def piBody : Body :=
  { name := "rotor", pos := fun _ => (0, 0), orient := fun _ => Real.pi,
    vel := fun _ => (0, 0), rotvel := fun _ => 0 }

/-- A bodybound element collection attached to `piBody` with a single node
whose untransformed position is (1, 0). -/
def piBase : ElementBase :=
  { E := elem_t.reactive, M := move_t.bodybound, B := some piBody, n := 1,
    x := ([1], [0]), s := none, u := ([0], [0]), ux := some ([1], [0]) }

/-- A surface over `piBase` with untransformed geometric center (1, 0)
(and no panels, which keeps `compute_bases` trivial). -/
def piSurf : Surfaces :=
  { base := piBase, np := 0, idx := []
    geom := { b0x := [], b0y := [], b1x := [], b1y := [], area := [] }
    pu := ([], []), ps := none, bc0 := none, bc1 := none
    rs0 := none, rs1 := none, vol := 1, utc := (1, 0), tc := (1, 0)
    solved_omega := 0, omega_error := 0 }

/-- A body rotating, not named "ground". -/
def rotBody : Body :=
  { name := "rotor", pos := fun _ => (0, 0), orient := fun _ => 0,
    vel := fun _ => (0, 0), rotvel := fun _ => 1 }

/-- Same single vertical panel as `groundSurf` but attached to the
non-ground `rotBody`: tangent (0,1), normal (-1,0), area 1, untransformed
center (0,0), panel center (0, 1/2). -/
def vertSurf : Surfaces :=
  { base := { E := elem_t.reactive, M := move_t.bodybound, B := some rotBody,
              n := 2, x := ([0, 0], [0, 1]), s := none,
              u := ([0, 0], [0, 0]), ux := some ([0, 0], [0, 1]) }
    np := 1, idx := [0, 1]
    geom := { b0x := [0], b0y := [1], b1x := [-1], b1y := [0], area := [1] }
    pu := ([0], [0]), ps := some [0], bc0 := some [0], bc1 := none
    rs0 := none, rs1 := none, vol := 1, utc := (0, 0), tc := (0, 0)
    solved_omega := 0, omega_error := 0 }

end

/-! ## Helper lemmas -/

theorem getD_range_map {α : Type} (f : ℕ → α) (n i : ℕ) (d : α) (h : i < n) :
    ((List.range n).map f).getD i d = f i := by
  rw [List.getD_eq_getElem _ _ (by simpa using h)]
  simp

theorem updRange_getD (n : ℕ) (f : ℕ → ℝ → ℝ) (l : List ℝ) (i : ℕ) (h : i < n) :
    (updRange n f l).getD i 0 = f i (l.getD i 0) := by
  unfold updRange
  rw [List.getD_append]
  · exact getD_range_map _ n i 0 h
  · simpa using h

theorem zipWith_add_zero_mul (x u : List ℝ) (h : x.length ≤ u.length) :
    List.zipWith (fun a b => a + (0 : ℝ) * b) x u = x := by
  induction x generalizing u with
  | nil => simp
  | cons a as ih =>
    cases u with
    | nil => simp at h
    | cons b bs => simpa using ih bs (by simpa using h)

/-! ## The claims -/

/-- C6 counterexample: `Hybrid::from_json` does not clamp: ingesting
`elementOrder = 99`, `timeOrder = 3`, `numSubsteps = 5000` stores those
very values, none of which lies in the claimed range. -/
theorem c6_counterexample :
    (from_json true ⟨some true, some 99, some 3, some 5000, none, none⟩ hybridDefault).elementOrder = 99 ∧
    (from_json true ⟨some true, some 99, some 3, some 5000, none, none⟩ hybridDefault).timeOrder = 3 ∧
    (from_json true ⟨some true, some 99, some 3, some 5000, none, none⟩ hybridDefault).numSubsteps = 5000 ∧
    ¬((99 : Int) ≤ 5) ∧ ¬((3 : Int) = 1 ∨ (3 : Int) = 2 ∨ (3 : Int) = 4) ∧ ¬((5000 : Int) ≤ 1000) := by
  refine ⟨rfl, rfl, rfl, by decide, by decide, by decide⟩

/-- C6 (amended): when the document has a "hybrid" object,
`Hybrid::from_json` stores each recognized knob exactly as given (with the
constructor defaults for absent keys) and performs no range validation;
without a "hybrid" object the state is unchanged. -/
theorem c6_from_json_verbatim (cfg : HybridConfig) (h : HybridParams) :
    (from_json true cfg h).active = cfg.enabled.getD false ∧
    (from_json true cfg h).elementOrder = cfg.elementOrder.getD 1 ∧
    (from_json true cfg h).timeOrder = cfg.timeOrder.getD 1 ∧
    (from_json true cfg h).numSubsteps = cfg.numSubsteps.getD 100 ∧
    (from_json true cfg h).preconditioner = cfg.preconditioner.getD "none" ∧
    (from_json true cfg h).solverType = cfg.solverType.getD "fgmres" ∧
    from_json false cfg h = h := by
  simp [from_json]

/-- C10: when `active == false`, both `Hybrid::first_step` and
`Hybrid::step` return at their first statement: whatever initialisation
and body they would otherwise run, the parameter state (including
`initialized`) and the whole world (vorticity collections, boundary
collections, Euler volumes, external solver) are returned unchanged. -/
theorem c10_inactive_noop {W : Type} (h : HybridParams)
    (doInit1 doInit2 body1 body2 : HybridParams → W → HybridParams × W) (w : W)
    (hact : h.active = false) :
    hybrid_first_step h doInit1 body1 w = (h, w) ∧
    hybrid_step h doInit2 body2 w = (h, w) := by
  constructor <;> simp [hybrid_first_step, hybrid_step, hact]

/-- C10 witness: the inactive default state is returned unchanged even
when the initialisation and body would overwrite everything. -/
theorem c10_inactive_noop_witness :
    hybrid_first_step hybridDefault (fun h _ => (h, 7)) (fun h _ => (h, 9)) (0 : ℕ) = (hybridDefault, 0) ∧
    hybrid_step hybridDefault (fun h _ => (h, 7)) (fun h _ => (h, 9)) (0 : ℕ) = (hybridDefault, 0) :=
  c10_inactive_noop hybridDefault (fun h _ => (h, 7)) (fun h _ => (h, 7))
    (fun h _ => (h, 9)) (fun h _ => (h, 9)) 0 rfl

/-- C1: evaluation at the failing input.  For a reactive surface attached
to a body named "ground" with positive volume, `Surfaces::is_augmented`
returns true, while both the claim and the function's own comment
("don't augment the ground body, or the boundary to an internal flow")
say it must not be augmented. -/
theorem c1_is_augmented_ground_positive_vol :
    is_augmented groundSurf = true ∧ ¬ spec_is_augmented groundSurf := by
  constructor
  · rw [is_augmented]
    norm_num [groundSurf, groundBody]
  · simp [spec_is_augmented, groundSurf, groundBody]

/-- C5: evaluation at the failing input.  On a zero-length panel (both
nodes at (1,2)) `compute_bases` proceeds instead of rejecting: it divides
by the zero edge length without any guard (in C++ this produces a
non-finite tangent; under the total division of the embedding a zero
one), stores area 0 — violating the positive-area invariant — and a
degenerate tangent that is not a unit vector. -/
theorem c5_compute_bases_no_guard :
    (computeBases [1, 1] [2, 2] [0, 1] 1).area = [0] ∧
    (computeBases [1, 1] [2, 2] [0, 1] 1).b0x = [0] ∧
    (computeBases [1, 1] [2, 2] [0, 1] 1).b0y = [0] ∧
    ¬((0 : ℝ) ^ 2 + (0 : ℝ) ^ 2 = 1) := by
  norm_num [computeBases, List.range_succ]

theorem phaseCLoop_spec (ev ar : List ℚ) (lag : ℕ → List ℚ) :
    ∀ fuel iter, iter + fuel = 21 → iter ≤ 20 →
      ∀ r, r = phaseCLoop ev ar lag fuel iter (phaseCErrAt ev ar lag iter) →
      iter ≤ r.1 ∧ r.1 ≤ 20 ∧ r.2 = phaseCErrAt ev ar lag r.1 ∧
      (∀ k, iter ≤ k → k < r.1 → 1/100 < phaseCErrAt ev ar lag k) ∧
      (r.1 < 20 → r.2 ≤ 1/100) := by
  intro fuel
  induction fuel with
  | zero => intro iter h21 h20 r hr; omega
  | succ f ih =>
    intro iter h21 h20 r hr
    rw [phaseCLoop] at hr
    by_cases hguard : 1/100 < phaseCErrAt ev ar lag iter ∧ iter < 20
    · rw [if_pos (by exact hguard)] at hr
      obtain ⟨ha, hb, hc, hd, he⟩ :=
        ih (iter + 1) (by omega) (by omega) r (by rw [hr]; rfl)
      refine ⟨by omega, hb, hc, ?_, he⟩
      intro k hk1 hk2
      rcases Nat.eq_or_lt_of_le hk1 with heq | hlt
      · rw [← heq]; exact hguard.1
      · exact hd k hlt hk2
    · rw [if_neg (by exact hguard)] at hr
      rw [hr]
      refine ⟨Nat.le_refl _, h20, rfl, by omega, ?_⟩
      intro hlt
      rcases not_and_or.mp hguard with hnum | hk
      · exact le_of_not_lt hnum
      · exact absurd hlt hk

/-- C8: the phase-C correction loop of `Hybrid::step` always terminates:
it executes at most 20 passes, it only ever continues past a pass whose
error exceeds the tolerance 0.01, the error it returns is the one of the
pass it stopped at, and whenever it stops before the 20-pass cap the
returned relative error is at or below 0.01. -/
theorem c8_phaseC_terminates (ev ar : List ℚ) (lag : ℕ → List ℚ) :
    (phaseC ev ar lag).1 ≤ 20 ∧
    (phaseC ev ar lag).2 = phaseCErrAt ev ar lag (phaseC ev ar lag).1 ∧
    (∀ k, k < (phaseC ev ar lag).1 → 1/100 < phaseCErrAt ev ar lag k) ∧
    ((phaseC ev ar lag).1 < 20 → (phaseC ev ar lag).2 ≤ 1/100) := by
  obtain ⟨-, hb, hc, hd, he⟩ :=
    phaseCLoop_spec ev ar lag 21 0 rfl (by omega) (phaseC ev ar lag) rfl
  exact ⟨hb, hc, fun k hk => hd k (Nat.zero_le k) hk, he⟩

theorem phaseCLoop_const_big (ev ar : List ℚ) (lag : ℕ → List ℚ) (err : ℚ)
    (herr : ∀ k, phaseCErrAt ev ar lag k = err) (hbig : 1/100 < err) :
    ∀ fuel iter, iter + fuel = 21 → iter ≤ 20 →
      phaseCLoop ev ar lag fuel iter err = (20, err) := by
  intro fuel
  induction fuel with
  | zero => intro iter h21 h20; omega
  | succ f ih =>
    intro iter h21 h20
    rw [phaseCLoop]
    by_cases hit : iter < 20
    · rw [if_pos ⟨hbig, hit⟩, show phaseCError ev (lag (iter + 1)) ar = err from herr (iter + 1)]
      exact ih (iter + 1) (by omega) (by omega)
    · rw [if_neg (by intro hc; exact hit hc.2), show iter = 20 by omega]

theorem c3_err_eval : phaseCError [1/1000000] [1] [1] = 999999 := by
  have h1 : |((1 : ℚ)/1000000 - 1) * 1| = 999999/1000000 := by
    rw [abs_of_nonpos (by norm_num)]; norm_num
  have h2 : |(1 : ℚ)/1000000 * 1| = 1/1000000 := by
    rw [abs_of_nonneg (by norm_num)]; norm_num
  simp only [phaseCError, maskedDeficit, totalCircMag, List.zipWith_cons_cons,
    List.zipWith_nil_right, List.map_cons, List.map_nil, List.sum_cons, List.sum_nil, h1, h2]
  norm_num

/-- C3 counterexample: with one solution point, eulvort = 1/1000000,
lagvort = 1 and mask_area = 1, the total masked Eulerian circulation
magnitude is 1/1000000 — approximately zero — yet the loop does not
terminate immediately with err = 0: the initial relative error is 999999,
the loop runs to the 20-iteration cap and the final error is nonzero. -/
theorem c3_counterexample :
    totalCircMag [1/1000000] [1] = 1/1000000 ∧
    phaseCError [1/1000000] [1] [1] = 999999 ∧
    (phaseC [1/1000000] [1] (fun _ => [1])).1 = 20 ∧
    (phaseC [1/1000000] [1] (fun _ => [1])).2 ≠ 0 := by
  have herr : ∀ k, phaseCErrAt [1/1000000] [1] (fun _ => [1]) k = 999999 :=
    fun _ => c3_err_eval
  have hloop : phaseC [1/1000000] [1] (fun _ => [1]) = (20, 999999) := by
    rw [phaseC, show phaseCError [1/1000000] ((fun _ : ℕ => [(1 : ℚ)]) 0) [1] = 999999 from c3_err_eval]
    exact phaseCLoop_const_big _ _ _ _ herr (by norm_num) 21 0 rfl (by omega)
  have htot : totalCircMag [1/1000000] [1] = 1/1000000 := by
    have h2 : |(1 : ℚ)/1000000 * 1| = 1/1000000 := by
      rw [abs_of_nonneg (by norm_num)]; norm_num
    simp [totalCircMag, h2]
  refine ⟨htot, c3_err_eval, by rw [hloop], by rw [hloop]; norm_num⟩

/-- C3 (amended): the code has no special case for a vanishing total:
whenever the total masked Eulerian circulation magnitude is positive, the
correction loop terminates immediately exactly when the initial relative
error (Sigma |deficit| / total) is at or below the tolerance 0.01 — so a
total that is approximately zero under a nonzero masked deficit produces
an enormous error and the loop instead runs to its 20-iteration cap
(termination is guaranteed only by the cap; at a total of exactly zero
the C++ error is a division by zero, not 0). -/
theorem c3_no_special_case (ev ar : List ℚ) (lag : ℕ → List ℚ)
    (_htot : 0 < totalCircMag ev ar) :
    (phaseC ev ar lag).1 = 0 ↔ phaseCError ev (lag 0) ar ≤ 1/100 := by
  constructor
  · intro h0
    by_contra hgt
    rw [not_le] at hgt
    have hstep : phaseC ev ar lag =
        phaseCLoop ev ar lag 20 1 (phaseCErrAt ev ar lag 1) := by
      rw [phaseC, phaseCLoop, if_pos ⟨hgt, by omega⟩]; rfl
    obtain ⟨ha, -, -, -, -⟩ :=
      phaseCLoop_spec ev ar lag 20 1 rfl (by omega) (phaseC ev ar lag) hstep
    omega
  · intro hle
    rw [phaseC, phaseCLoop, if_neg (by rw [not_and]; intro h; exact absurd hle (not_le.mpr h))]

/-- C2: evaluation at the failing input.  For a body whose orientation is
pi radians, `Surfaces::transform` maps the geometric center with
`R(theta)` exactly as the claim says (utc = (1,0) goes to (-1,0)), but
`ElementBase::transform` rotates the nodes by `M_PI*theta/180` — treating
the radian orientation as degrees — so the node at untransformed (1,0)
goes to (cos(pi*pi/180), sin(pi*pi/180)), not to the claimed (-1,0): the
two halves of the same transform disagree and the node positions violate
the claimed formula. -/
theorem c2_transform_degree_radian_mismatch :
    (ebTransform 0 piBase).x =
      ([Real.cos (Real.pi * Real.pi / 180)], [Real.sin (Real.pi * Real.pi / 180)]) ∧
    (surfTransform 0 piSurf).tc = (-1, 0) ∧
    (ebTransform 0 piBase).x ≠ spec_transform_x (0, 0) Real.pi ([1], [0]) := by
  have hlt : Real.pi * Real.pi / 180 < Real.pi / 2 := by
    nlinarith [Real.pi_pos, Real.pi_lt_d2]
  have hgt : -(Real.pi / 2) < Real.pi * Real.pi / 180 := by
    nlinarith [Real.pi_pos]
  have hpos : 0 < Real.cos (Real.pi * Real.pi / 180) :=
    Real.cos_pos_of_mem_Ioo ⟨hgt, hlt⟩
  refine ⟨?_, ?_, ?_⟩
  · simp [ebTransform, piBase, piBody]
  · simp [surfTransform, ebTransform, piSurf, piBase, piBody, Real.cos_pi, Real.sin_pi]
  · intro h
    simp [ebTransform, piBase, piBody, spec_transform_x, Real.cos_pi, Real.sin_pi] at h
    nlinarith [h.1]

/-- C9: `move(t, dt)` with `dt = 0` leaves every node position unchanged,
for every movement type: lagrangian positions get `x += 0*u`, bodybound
collections are re-transformed to time `t+0 = t` — which is the identity
on positions whenever the collection already satisfies the bodybound
position invariant at time `t` — and all other collections are untouched.
The length hypotheses are the `len == n` invariant relating the position
and velocity arrays. -/
theorem c9_move_zero_dt (e : ElementBase) (t : ℝ)
    (hlen1 : e.x.1.length ≤ e.u.1.length) (hlen2 : e.x.2.length ≤ e.u.2.length)
    (hbody : e.M = move_t.bodybound → (ebTransform t e).x = e.x) :
    (ebMove t 0 e).x = e.x := by
  rw [ebMove]
  by_cases hM : e.M = move_t.lagrangian
  · rw [if_pos hM]
    exact Prod.ext (zipWith_add_zero_mul _ _ hlen1) (zipWith_add_zero_mul _ _ hlen2)
  · rw [if_neg hM]
    by_cases hBB : (e.B.isSome : Prop) ∧ e.M = move_t.bodybound
    · rw [if_pos hBB, add_zero]
      exact hbody hBB.2
    · rw [if_neg hBB]

/-- C9 witness: a lagrangian collection with one node at (1,2) and
velocity (3,4) is unmoved by `move(t, 0)`. -/
theorem c9_move_zero_dt_witness :
    (ebMove 0 0 (ElementBase.mk elem_t.active move_t.lagrangian none 1
      ([1], [2]) none ([3], [4]) none)).x = ([1], [2]) :=
  c9_move_zero_dt (ElementBase.mk elem_t.active move_t.lagrangian none 1
      ([1], [2]) none ([3], [4]) none) 0 (by simp) (by simp)
    (by intro h; simp at h)

/-- C7: after `compute_bases`, every panel `i` whose endpoint nodes do not
coincide has a unit tangent `b[0][.][i]` that points from node `idx[2i]`
to node `idx[2i+1]` (the tangent times the positive area equals the edge
vector), a normal `b[1][.][i]` equal to the 90-degree counterclockwise
rotation `(-tan_y, tan_x)` of the tangent, and an area equal to the
Euclidean length of the edge. -/
theorem c7_compute_bases_invariants (x0 x1 : List ℝ) (idx : List ℕ) (nnew i : ℕ)
    (hi : i < nnew)
    (hne : x0.getD (idx.getD (2*i+1) 0) 0 - x0.getD (idx.getD (2*i) 0) 0 ≠ 0 ∨
           x1.getD (idx.getD (2*i+1) 0) 0 - x1.getD (idx.getD (2*i) 0) 0 ≠ 0) :
    (computeBases x0 x1 idx nnew).b0x.getD i 0 ^ 2 +
        (computeBases x0 x1 idx nnew).b0y.getD i 0 ^ 2 = 1 ∧
    0 < (computeBases x0 x1 idx nnew).area.getD i 0 ∧
    (computeBases x0 x1 idx nnew).b0x.getD i 0 * (computeBases x0 x1 idx nnew).area.getD i 0 =
      x0.getD (idx.getD (2*i+1) 0) 0 - x0.getD (idx.getD (2*i) 0) 0 ∧
    (computeBases x0 x1 idx nnew).b0y.getD i 0 * (computeBases x0 x1 idx nnew).area.getD i 0 =
      x1.getD (idx.getD (2*i+1) 0) 0 - x1.getD (idx.getD (2*i) 0) 0 ∧
    (computeBases x0 x1 idx nnew).b1x.getD i 0 = -(computeBases x0 x1 idx nnew).b0y.getD i 0 ∧
    (computeBases x0 x1 idx nnew).b1y.getD i 0 = (computeBases x0 x1 idx nnew).b0x.getD i 0 ∧
    (computeBases x0 x1 idx nnew).area.getD i 0 =
      Real.sqrt ((x0.getD (idx.getD (2*i+1) 0) 0 - x0.getD (idx.getD (2*i) 0) 0) ^ 2 +
                 (x1.getD (idx.getD (2*i+1) 0) 0 - x1.getD (idx.getD (2*i) 0) 0) ^ 2) := by
  have hb0x := getD_range_map (fun j =>
      (x0.getD (idx.getD (2*j+1) 0) 0 - x0.getD (idx.getD (2*j) 0) 0) *
        (1 / Real.sqrt ((x0.getD (idx.getD (2*j+1) 0) 0 - x0.getD (idx.getD (2*j) 0) 0) *
              (x0.getD (idx.getD (2*j+1) 0) 0 - x0.getD (idx.getD (2*j) 0) 0) +
            (x1.getD (idx.getD (2*j+1) 0) 0 - x1.getD (idx.getD (2*j) 0) 0) *
              (x1.getD (idx.getD (2*j+1) 0) 0 - x1.getD (idx.getD (2*j) 0) 0)))) nnew i 0 hi
  have hb0y := getD_range_map (fun j =>
      (x1.getD (idx.getD (2*j+1) 0) 0 - x1.getD (idx.getD (2*j) 0) 0) *
        (1 / Real.sqrt ((x0.getD (idx.getD (2*j+1) 0) 0 - x0.getD (idx.getD (2*j) 0) 0) *
              (x0.getD (idx.getD (2*j+1) 0) 0 - x0.getD (idx.getD (2*j) 0) 0) +
            (x1.getD (idx.getD (2*j+1) 0) 0 - x1.getD (idx.getD (2*j) 0) 0) *
              (x1.getD (idx.getD (2*j+1) 0) 0 - x1.getD (idx.getD (2*j) 0) 0)))) nnew i 0 hi
  have hb1x := getD_range_map (fun j =>
      -((x1.getD (idx.getD (2*j+1) 0) 0 - x1.getD (idx.getD (2*j) 0) 0) *
        (1 / Real.sqrt ((x0.getD (idx.getD (2*j+1) 0) 0 - x0.getD (idx.getD (2*j) 0) 0) *
              (x0.getD (idx.getD (2*j+1) 0) 0 - x0.getD (idx.getD (2*j) 0) 0) +
            (x1.getD (idx.getD (2*j+1) 0) 0 - x1.getD (idx.getD (2*j) 0) 0) *
              (x1.getD (idx.getD (2*j+1) 0) 0 - x1.getD (idx.getD (2*j) 0) 0))))) nnew i 0 hi
  have harea := getD_range_map (fun j =>
      Real.sqrt ((x0.getD (idx.getD (2*j+1) 0) 0 - x0.getD (idx.getD (2*j) 0) 0) *
            (x0.getD (idx.getD (2*j+1) 0) 0 - x0.getD (idx.getD (2*j) 0) 0) +
          (x1.getD (idx.getD (2*j+1) 0) 0 - x1.getD (idx.getD (2*j) 0) 0) *
            (x1.getD (idx.getD (2*j+1) 0) 0 - x1.getD (idx.getD (2*j) 0) 0))) nnew i 0 hi
  set dx := x0.getD (idx.getD (2*i+1) 0) 0 - x0.getD (idx.getD (2*i) 0) 0 with hdx
  set dy := x1.getD (idx.getD (2*i+1) 0) 0 - x1.getD (idx.getD (2*i) 0) 0 with hdy
  have hsum : 0 < dx * dx + dy * dy := by
    rcases hne with h | h
    · have := mul_self_pos.mpr h
      nlinarith [mul_self_nonneg dy]
    · have := mul_self_pos.mpr h
      nlinarith [mul_self_nonneg dx]
  set base := Real.sqrt (dx * dx + dy * dy) with hbase
  have hbpos : 0 < base := Real.sqrt_pos.mpr hsum
  have hbsq : base * base = dx * dx + dy * dy := Real.mul_self_sqrt hsum.le
  have e0x : (computeBases x0 x1 idx nnew).b0x.getD i 0 = dx * (1 / base) := by
    simp only [computeBases]; exact hb0x
  have e0y : (computeBases x0 x1 idx nnew).b0y.getD i 0 = dy * (1 / base) := by
    simp only [computeBases]; exact hb0y
  have e1x : (computeBases x0 x1 idx nnew).b1x.getD i 0 = -(dy * (1 / base)) := by
    simp only [computeBases]; exact hb1x
  have e1y : (computeBases x0 x1 idx nnew).b1y.getD i 0 = dx * (1 / base) := by
    simp only [computeBases]; exact hb0x
  have earea : (computeBases x0 x1 idx nnew).area.getD i 0 = base := by
    simp only [computeBases]; exact harea
  refine ⟨?_, ?_, ?_, ?_, ?_, ?_, ?_⟩
  · rw [e0x, e0y]
    field_simp
    nlinarith [hbsq]
  · rw [earea]; exact hbpos
  · rw [e0x, earea]; field_simp
  · rw [e0y, earea]; field_simp
  · rw [e1x, e0y]
  · rw [e1y, e0x]
  · rw [earea, hbase]
    congr 1
    ring

/-- C7 witness: the horizontal unit panel from node (0,0) to node (1,0)
has unit tangent times area equal to the edge vector, normal equal to the
rotated tangent and area equal to the edge length. -/
theorem c7_compute_bases_invariants_witness :
    (computeBases [0, 1] [0, 0] [0, 1] 1).b0x.getD 0 0 ^ 2 +
        (computeBases [0, 1] [0, 0] [0, 1] 1).b0y.getD 0 0 ^ 2 = 1 ∧
    0 < (computeBases [0, 1] [0, 0] [0, 1] 1).area.getD 0 0 ∧
    (computeBases [0, 1] [0, 0] [0, 1] 1).b0x.getD 0 0 *
        (computeBases [0, 1] [0, 0] [0, 1] 1).area.getD 0 0 =
      ([0, 1] : List ℝ).getD (([0, 1] : List ℕ).getD 1 0) 0 -
        ([0, 1] : List ℝ).getD (([0, 1] : List ℕ).getD 0 0) 0 ∧
    (computeBases [0, 1] [0, 0] [0, 1] 1).b0y.getD 0 0 *
        (computeBases [0, 1] [0, 0] [0, 1] 1).area.getD 0 0 =
      ([0, 0] : List ℝ).getD (([0, 1] : List ℕ).getD 1 0) 0 -
        ([0, 0] : List ℝ).getD (([0, 1] : List ℕ).getD 0 0) 0 ∧
    (computeBases [0, 1] [0, 0] [0, 1] 1).b1x.getD 0 0 =
      -(computeBases [0, 1] [0, 0] [0, 1] 1).b0y.getD 0 0 ∧
    (computeBases [0, 1] [0, 0] [0, 1] 1).b1y.getD 0 0 =
      (computeBases [0, 1] [0, 0] [0, 1] 1).b0x.getD 0 0 ∧
    (computeBases [0, 1] [0, 0] [0, 1] 1).area.getD 0 0 =
      Real.sqrt ((([0, 1] : List ℝ).getD (([0, 1] : List ℕ).getD 1 0) 0 -
            ([0, 1] : List ℝ).getD (([0, 1] : List ℕ).getD 0 0) 0) ^ 2 +
          (([0, 0] : List ℝ).getD (([0, 1] : List ℕ).getD 1 0) 0 -
            ([0, 0] : List ℝ).getD (([0, 1] : List ℕ).getD 0 0) 0) ^ 2) :=
  c7_compute_bases_invariants [0, 1] [0, 0] [0, 1] 1 0 (by omega) (Or.inl (by norm_num))

/-- C4 counterexample.  On `vertSurf` — one vertical panel from (0,0) to
(0,1), tangent (0,1), normal (-1,0), area 1, untransformed center (0,0),
panel center (0, 1/2) — with rotation rate 1, the imposed center velocity
per the claim is `(u, v) = (-1*(1/2 - 0), 1*(0 - 0)) = (-1/2, 0)` and the
claim's source contribution `-(u*norm_x - v*norm_y)` is `-1/2`; the code
(`new_src = -(ui*panely - vi*panelx)` at Surfaces.h:519) adds `+1/2` to
`rs[1][0]` instead. -/
theorem c4_counterexample :
    (add_rot_strengths_base 1 vertSurf).rs1 = some [1/2] ∧
    spec_src_delta (-1 * (1/2 - 0)) (1 * (0 - 0))
      (vertSurf.geom.b1x.getD 0 0) (vertSurf.geom.b1y.getD 0 0) = -(1/2) ∧
    ((1 : ℝ)/2) ≠ -(1/2) := by
  refine ⟨?_, ?_, by norm_num⟩
  · norm_num [add_rot_strengths_base, vertSurf, rotBody, rotDelta, resizeList, updRange,
      List.range_succ]
    rw [if_neg (by decide)]
  · norm_num [spec_src_delta, vertSurf]

/-- C4 (amended): for every surface with a non-ground body and strengths
present, `add_rot_strengths_base(omega)` takes the imposed center
velocity `(u, v) = (-omega*(yc - tc_y), omega*(xc - tc_x))` — with the
panel center and geometric center in untransformed (body-frame)
coordinates — and adds the vortex contribution `-(u*tan_x + v*tan_y)` to
both `ps[i]` and `rs[0][i]` and the source contribution
`-(u*tan_y - v*tan_x)` (not `-(u*norm_x - v*norm_y)`) to `rs[1][i]`,
where the tangent is the panel's edge vector scaled by `1/area[i]`. -/
theorem c4_rot_strengths_amended (s : Surfaces) (bdy : Body) (omega xc yc tanx tany : ℝ)
    (psv : List ℝ) (uxp : List ℝ × List ℝ) (i j jp1 : ℕ)
    (hB : s.base.B = some bdy) (hname : bdy.name ≠ "ground")
    (hps : s.ps = some psv) (hux : s.base.ux = some uxp) (hi : i < s.np)
    (hj : j = s.idx.getD (2*i) 0) (hjp1 : jp1 = s.idx.getD (2*i+1) 0)
    (hxc : xc = (uxp.1.getD j 0 + uxp.1.getD jp1 0) / 2)
    (hyc : yc = (uxp.2.getD j 0 + uxp.2.getD jp1 0) / 2)
    (htx : tanx = (uxp.1.getD jp1 0 - uxp.1.getD j 0) * (1 / s.geom.area.getD i 0))
    (hty : tany = (uxp.2.getD jp1 0 - uxp.2.getD j 0) * (1 / s.geom.area.getD i 0)) :
    ((add_rot_strengths_base omega s).ps.getD []).getD i 0 =
      psv.getD i 0 +
        amended_vort_delta (-omega * (yc - s.utc.2)) (omega * (xc - s.utc.1)) tanx tany ∧
    ((add_rot_strengths_base omega s).rs0.getD []).getD i 0 =
      (resizeList (s.rs0.getD []) s.np).getD i 0 +
        amended_vort_delta (-omega * (yc - s.utc.2)) (omega * (xc - s.utc.1)) tanx tany ∧
    ((add_rot_strengths_base omega s).rs1.getD []).getD i 0 =
      (resizeList (s.rs1.getD []) s.np).getD i 0 +
        amended_src_delta (-omega * (yc - s.utc.2)) (omega * (xc - s.utc.1)) tanx tany := by
  have hdelta1 : (rotDelta s omega i).1 =
      amended_vort_delta (-omega * (yc - s.utc.2)) (omega * (xc - s.utc.1)) tanx tany := by
    rw [rotDelta, hux]
    simp only [Option.getD_some]
    rw [← hj, ← hjp1]
    rw [amended_vort_delta, hxc, hyc, htx, hty]
  have hdelta2 : (rotDelta s omega i).2 =
      amended_src_delta (-omega * (yc - s.utc.2)) (omega * (xc - s.utc.1)) tanx tany := by
    rw [rotDelta, hux]
    simp only [Option.getD_some]
    rw [← hj, ← hjp1]
    rw [amended_src_delta, hxc, hyc, htx, hty]
  rw [add_rot_strengths_base, hB, hps]
  simp only [if_neg hname, Option.getD_some]
  refine ⟨?_, ?_, ?_⟩
  · rw [updRange_getD _ _ _ _ hi, hdelta1]
  · rw [updRange_getD _ _ _ _ hi, hdelta1]
  · rw [updRange_getD _ _ _ _ hi, hdelta2]

/-- C4 witness: the amended contributions evaluated on the vertical unit
panel of `vertSurf` at rotation rate 1. -/
theorem c4_rot_strengths_amended_witness :
    ((add_rot_strengths_base 1 vertSurf).ps.getD []).getD 0 0 =
      ([0] : List ℝ).getD 0 0 + amended_vort_delta (-1 * (1/2 - 0)) (1 * (0 - 0)) 0 1 ∧
    ((add_rot_strengths_base 1 vertSurf).rs0.getD []).getD 0 0 =
      (resizeList (vertSurf.rs0.getD []) vertSurf.np).getD 0 0 +
        amended_vort_delta (-1 * (1/2 - 0)) (1 * (0 - 0)) 0 1 ∧
    ((add_rot_strengths_base 1 vertSurf).rs1.getD []).getD 0 0 =
      (resizeList (vertSurf.rs1.getD []) vertSurf.np).getD 0 0 +
        amended_src_delta (-1 * (1/2 - 0)) (1 * (0 - 0)) 0 1 := by
  have h := c4_rot_strengths_amended vertSurf rotBody 1 0 (1/2) 0 1 [0] ([0, 0], [0, 1])
    0 0 1 rfl (by decide) rfl rfl (by norm_num [vertSurf])
    rfl rfl (by norm_num) (by norm_num) (by norm_num [vertSurf]) (by norm_num [vertSurf])
  have hutc2 : vertSurf.utc.2 = 0 := rfl
  have hutc1 : vertSurf.utc.1 = 0 := rfl
  rw [hutc1, hutc2] at h
  exact h

/-- C3 witness: a state with positive total (eulvort = lagvort = mask = 1)
where the initial error is 0 and the loop indeed terminates immediately. -/
theorem c3_no_special_case_witness :
    0 < totalCircMag [1] [1] ∧
    ((phaseC [1] [1] (fun _ => [1])).1 = 0 ↔ phaseCError [1] [1] [1] ≤ 1/100) :=
  ⟨by simp [totalCircMag], c3_no_special_case [1] [1] (fun _ => [1]) (by simp [totalCircMag])⟩

end Omega2D
